import Mathlib

/-!
# Verification of the loom blueprint compiler

A shallow embedding of `src/blueprint_parser/parser.py` and
`src/blueprint_parser/schema.py` from the loom repository, together with
proofs of the behavioural properties stated in the specification.

Modelling conventions:

* YAML documents (the trees produced by `yaml.safe_load`) are the inductive
  type `Yaml`; mappings are association lists with string keys, which covers
  every document shape the program and its tests exercise.
* `yaml.safe_load` itself is an external library.  It is modelled as an
  explicit function `YamlLib.safe_load : String → Except String (Option Yaml)`
  passed to the compiler: `.error` models a raised `yaml.YAMLError`, `.ok none`
  models a document that parses to `None` (an empty document), `.ok (some y)`
  a successful parse.
* The jinja2 engine configured with `Environment(undefined=StrictUndefined)`
  is modelled concretely for the feature subset the program uses: double-brace
  variable interpolation over raw text with strict undefined variables
  (`scanTemplate`, `evalExpr`, `renderTemplate`).  A `JinjaErr.lexErr` models a
  `TemplateSyntaxError`, `JinjaErr.undefinedErr` an `UndefinedError`; both are
  subclasses of `jinja2.TemplateError`, which is the exception class caught by
  `_load_and_render_routine`.
* Raised Python exceptions are the `PyErr` type, keeping the Python exception
  class: `FileNotFoundError`, `ValueError`, and `TypeError` (a `TypeError` is
  what `Model(**data)` raises when `data` is not a mapping).
* The pydantic models of `schema.py` become structures, and pydantic
  validation of each model becomes an explicit validator returning
  `Except String model` (the `String` standing for the `ValidationError`
  message).  Pydantic v2 semantics are followed: required `str` fields accept
  exactly string values (empty strings included), defaults are applied for
  absent optional fields, the `with_args` field is populated only through its
  alias `with`, and `model_dump(by_alias=True)` serialises it back under the
  key `with`.
* The filesystem is an association list from paths to file contents; a missing
  entry models a file that does not exist.
-/

namespace Loom

/-- A YAML document tree, as produced by `yaml.safe_load`: scalars, sequences
and mappings.  Mapping keys are strings, the only key shape the program
exercises. -/
inductive Yaml where
  | str (s : String)
  | int (n : Int)
  | bool (b : Bool)
  | null
  | seq (items : List Yaml)
  | map (entries : List (String × Yaml))


/-- Python `dict` lookup on an association list (first binding wins; the
loaders never produce duplicate keys). -/
def lookupY (entries : List (String × Yaml)) (k : String) : Option Yaml :=
  match entries with
  | [] => none
  | (k2, v) :: rest => if k2 = k then some v else lookupY rest k

/-! ## Schema model (`schema.py`) -/

/-- `StepModel` from `schema.py`: one atomic unit of work inside a routine.
The `with_args` field is aliased to the YAML key `with`. -/
structure StepModel where
  name : String
  uses : String
  ensure : String
  with_args : List (String × Yaml)


/-- `RoutineModel` from `schema.py`: a task file, an ordered list of steps. -/
structure RoutineModel where
  steps : List StepModel


/-- `TaskRefModel` from `schema.py`: one entry of a blueprint run list. -/
structure TaskRefModel where
  file : String
  when : Option String


/-- `BlueprintModel` from `schema.py`: the root document. -/
structure BlueprintModel where
  name : String
  target : String
  user : String
  vars : List (String × Yaml)
  run : List TaskRefModel


/-- Pydantic validation of a required `str` field: present and a string
(pydantic v2 does not coerce non-strings, and places no lower bound on
length). -/
def reqStr (entries : List (String × Yaml)) (k : String) : Except String String :=
  match lookupY entries k with
  | some (.str s) => .ok s
  | some _ => .error (k ++ ": Input should be a valid string")
  | none => .error (k ++ ": Field required")

/-- Pydantic validation of an optional `str` field with a default. -/
def optStr (entries : List (String × Yaml)) (k : String) (dflt : String) :
    Except String String :=
  match lookupY entries k with
  | none => .ok dflt
  | some (.str s) => .ok s
  | some _ => .error (k ++ ": Input should be a valid string")

/-- Pydantic validation of `StepModel` applied to one element of a `steps`
list.  `name` and `uses` are required strings, `ensure` defaults to
`"present"`, and the `with_args` field is read from the alias key `with`,
defaulting to the empty mapping. -/
def validateStep (y : Yaml) : Except String StepModel :=
  match y with
  | .map entries => do
    let n ← reqStr entries "name"
    let u ← reqStr entries "uses"
    let e ← optStr entries "ensure" "present"
    let w ← match lookupY entries "with" with
      | none => Except.ok []
      | some (.map m) => Except.ok m
      | some _ => Except.error "with: Input should be a valid dictionary"
    Except.ok { name := n, uses := u, ensure := e, with_args := w }
  | _ => .error "Input should be a valid dictionary or instance of StepModel"

/-- Pydantic validation of each element of a `steps` list, failing on the
first invalid element. -/
def validateSteps : List Yaml → Except String (List StepModel)
  | [] => .ok []
  | y :: rest => do
    let s ← validateStep y
    let ss ← validateSteps rest
    Except.ok (s :: ss)

/-- Pydantic validation of `RoutineModel`: a required `steps` field holding a
sequence of valid steps. -/
def validateRoutine (entries : List (String × Yaml)) : Except String RoutineModel :=
  match lookupY entries "steps" with
  | some (.seq items) => do
    let ss ← validateSteps items
    Except.ok { steps := ss }
  | some _ => .error "steps: Input should be a valid list"
  | none => .error "steps: Field required"

/-- Pydantic validation of `TaskRefModel`: `file` is a required string,
`when` is an optional string defaulting to `None`. -/
def validateTaskRef (y : Yaml) : Except String TaskRefModel :=
  match y with
  | .map entries => do
    let f ← reqStr entries "file"
    let w ← match lookupY entries "when" with
      | none => Except.ok (Option.none)
      | some .null => Except.ok (Option.none)
      | some (.str s) => Except.ok (Option.some s)
      | some _ => Except.error "when: Input should be a valid string"
    Except.ok { file := f, when := w }
  | _ => .error "Input should be a valid dictionary or instance of TaskRefModel"

/-- Pydantic validation of each element of a `run` list. -/
def validateTaskRefs : List Yaml → Except String (List TaskRefModel)
  | [] => .ok []
  | y :: rest => do
    let t ← validateTaskRef y
    let ts ← validateTaskRefs rest
    Except.ok (t :: ts)

/-- Pydantic validation of `BlueprintModel`: required `name`/`target`/`user`
strings, optional `vars` mapping defaulting to `{}`, required `run` sequence
of task references. -/
def validateBlueprint (entries : List (String × Yaml)) : Except String BlueprintModel := do
  let n ← reqStr entries "name"
  let t ← reqStr entries "target"
  let u ← reqStr entries "user"
  let v ← match lookupY entries "vars" with
    | none => Except.ok ([] : List (String × Yaml))
    | some (.map m) => Except.ok m
    | some _ => Except.error "vars: Input should be a valid dictionary"
  let r ← match lookupY entries "run" with
    | none => Except.error "run: Field required"
    | some (.seq items) => validateTaskRefs items
    | some _ => Except.error "run: Input should be a valid list"
  Except.ok { name := n, target := t, user := u, vars := v, run := r }

/-- `step.model_dump(by_alias=True)`: the step serialised back to a mapping,
with `with_args` under its alias key `with`, in field declaration order. -/
def StepModel.model_dump (s : StepModel) : List (String × Yaml) :=
  [("name", .str s.name), ("uses", .str s.uses),
   ("ensure", .str s.ensure), ("with", .map s.with_args)]

/-! ## The jinja2 template engine, as configured by the parser

`parser.py` builds `Environment(undefined=StrictUndefined)` and uses only
double-brace variable interpolation, rendering against the single binding
`vars` (`render_context = {"vars": context}`).  The model below reproduces
that subset: the lexer splits raw text at the delimiters, and expression
evaluation resolves `vars.<key>` against the context, failing on any
undefined reference (strict mode). -/

/-- A single quote character, used by the Python `repr` of strings. -/
def sq : String := String.singleton (Char.ofNat 39)

/-- An opening curly brace as a string. -/
def obr : String := String.singleton (Char.ofNat 123)

/-- A closing curly brace as a string. -/
def cbr : String := String.singleton (Char.ofNat 125)

/-- The opening variable delimiter of the template syntax. -/
def odelim : String := obr ++ obr

/-- The closing variable delimiter of the template syntax. -/
def cdelim : String := cbr ++ cbr

mutual

/-- Python `repr` of a YAML value, as used when jinja2 stringifies
containers. -/
def pyRepr : Yaml → String
  | .str s => sq ++ s ++ sq
  | .int n => toString n
  | .bool b => if b then "True" else "False"
  | .null => "None"
  | .seq items => "[" ++ pyReprItems items ++ "]"
  | .map entries => obr ++ pyReprEntries entries ++ cbr

/-- Python `repr` of the elements of a list, comma separated. -/
def pyReprItems : List Yaml → String
  | [] => ""
  | [y] => pyRepr y
  | y :: rest => pyRepr y ++ ", " ++ pyReprItems rest

/-- Python `repr` of the entries of a dict, comma separated. -/
def pyReprEntries : List (String × Yaml) → String
  | [] => ""
  | [(k, v)] => sq ++ k ++ sq ++ ": " ++ pyRepr v
  | (k, v) :: rest => sq ++ k ++ sq ++ ": " ++ pyRepr v ++ ", " ++ pyReprEntries rest

end

/-- Python `str` of a YAML value: what jinja2 substitutes for a variable
reference (scalars print bare, containers via `repr`). -/
def pyStr : Yaml → String
  | .str s => s
  | .int n => toString n
  | .bool b => if b then "True" else "False"
  | .null => "None"
  | y => pyRepr y

/-- A jinja2 template failure: `lexErr` models a `TemplateSyntaxError`
(raised by `from_string` on malformed delimiters), `undefinedErr` an
`UndefinedError` raised by `StrictUndefined` during rendering.  Both are
subclasses of `jinja2.TemplateError`. -/
inductive JinjaErr where
  | lexErr
  | undefinedErr (name : String)

/-- The message carried by a jinja2 template failure. -/
def JinjaErr.msg : JinjaErr → String
  | .lexErr => "unexpected end of template"
  | .undefinedErr n => "dict object has no attribute " ++ n

/-- One lexed segment of a template: literal text, or the expression text of
one double-brace variable block. -/
inductive Seg where
  | lit (text : List Char)
  | ref (expr : List Char)

/-- Template lexer.  Mode `false`: inside literal text, `acc` holds the
reversed current literal; an opening `{{` switches mode.  Mode `true`: inside
a variable block, `acc` holds the reversed expression text; a closing `}}`
switches back, and end of input inside a block is a `TemplateSyntaxError`. -/
def scanAux : Bool → List Char → List Char → Except JinjaErr (List Seg)
  | false, acc, '{' :: '{' :: rest =>
    (scanAux true [] rest).map (fun segs => .lit acc.reverse :: segs)
  | false, acc, c :: rest => scanAux false (c :: acc) rest
  | false, acc, [] => .ok [.lit acc.reverse]
  | true, acc, '}' :: '}' :: rest =>
    (scanAux false [] rest).map (fun segs => .ref acc.reverse :: segs)
  | true, acc, c :: rest => scanAux true (c :: acc) rest
  | true, _, [] => .error .lexErr

/-- Lex a raw template string into segments (models
`jinja_env.from_string`). -/
def scanTemplate (raw : String) : Except JinjaErr (List Seg) :=
  scanAux false [] raw.data

/-- Whitespace as stripped around template expressions. -/
def isSpaceChar (c : Char) : Bool :=
  c == ' ' || c == '\t' || c == '\n' || c == '\r'

/-- Drop leading whitespace. -/
def dropSpaces : List Char → List Char
  | [] => []
  | c :: rest => if isSpaceChar c then dropSpaces rest else c :: rest

/-- Strip whitespace from both ends of an expression. -/
def trimChars (l : List Char) : List Char :=
  (dropSpaces (dropSpaces l).reverse).reverse

/-- The characters of a `vars.<key>` attribute reference. -/
def varsRef (key : String) : List Char :=
  'v' :: 'a' :: 'r' :: 's' :: '.' :: key.data

/-- Recognise a `vars.<key>` attribute reference, returning the key text. -/
def stripVarsDot : List Char → Option (List Char)
  | 'v' :: 'a' :: 'r' :: 's' :: '.' :: rest => some rest
  | _ => none

/-- Evaluate one template expression under strict undefined semantics.  The
render context binds exactly one name, `vars`, to the blueprint's variable
mapping; `vars.<key>` resolves against it, any other reference (a missing
key, or a bare name that is not bound) raises an `UndefinedError`. -/
def evalExpr (context : List (String × Yaml)) (expr : List Char) :
    Except JinjaErr String :=
  match stripVarsDot (trimChars expr) with
  | some keyChars =>
    match lookupY context (String.mk keyChars) with
    | some v => .ok (pyStr v)
    | none => .error (.undefinedErr (String.mk keyChars))
  | none =>
    if trimChars expr = ['v', 'a', 'r', 's'] then .ok (pyStr (.map context))
    else .error (.undefinedErr (String.mk (trimChars expr)))

/-- Render one segment. -/
def renderSeg (context : List (String × Yaml)) : Seg → Except JinjaErr String
  | .lit text => .ok (String.mk text)
  | .ref expr => evalExpr context expr

/-- Render a segment list, concatenating the rendered pieces and stopping at
the first failure. -/
def renderSegs (context : List (String × Yaml)) :
    List Seg → Except JinjaErr String
  | [] => .ok ""
  | s :: rest => do
    let a ← renderSeg context s
    let b ← renderSegs context rest
    Except.ok (a ++ b)

/-- `jinja_env.from_string(raw).render(vars=context)`: lex, then render. -/
def renderTemplate (context : List (String × Yaml)) (raw : String) :
    Except JinjaErr String := do
  let segs ← scanTemplate raw
  renderSegs context segs

/-! ## The blueprint compiler (`parser.py`) -/

/-- A raised Python exception, keeping the Python exception class.
`_load_and_render_routine` and `parse_blueprint` raise `FileNotFoundError`
for missing files and `ValueError` for every wrapped failure; `typeError`
models the `TypeError` that `Model(**data)` raises when `data` is not a
mapping (no handler in `parser.py` catches it). -/
inductive PyErr where
  | fileNotFound (msg : String)
  | valueError (msg : String)
  | typeError (msg : String)

/-- The Python exception classes occurring in the compiler. -/
inductive PyType where
  | fileNotFoundError
  | valueErrorClass
  | typeErrorClass
deriving DecidableEq

/-- The exception class of a raised error — all a caller can match on
without reading the message. -/
def PyErr.pyType : PyErr → PyType
  | .fileNotFound _ => .fileNotFoundError
  | .valueError _ => .valueErrorClass
  | .typeError _ => .typeErrorClass

/-- The external YAML library: `yaml.safe_load` on a string either raises a
`yaml.YAMLError` (`.error`), yields `None` for an empty document
(`.ok none`), or yields a document tree (`.ok (some y)`). -/
structure YamlLib where
  safe_load : String → Except String (Option Yaml)

/-- The filesystem visible to the compiler: a map from paths to file
contents.  A path that is not present models a file that does not exist
(both for `Path.exists` and for `open`). -/
abbrev FileSys := List (String × String)

/-- Read a file, `none` when the path does not exist. -/
def readFile? (fs : FileSys) (path : String) : Option String :=
  match fs with
  | [] => none
  | (p, content) :: rest => if p = path then some content else readFile? rest path

/-- Path concatenation, `dir / file` on `pathlib.Path`. -/
def pjoin (dir file : String) : String := dir ++ "/" ++ file

/-- The `BlueprintParser` object: its only state is the project root (the
jinja environment it also stores is stateless, modelled by
`renderTemplate`). -/
structure BlueprintParser where
  root : String

/-- `self.tasks_dir = self.root / "tasks"`, fixed in `__init__`. -/
def BlueprintParser.tasks_dir (p : BlueprintParser) : String :=
  pjoin p.root "tasks"

/-- `BlueprintParser._load_and_render_routine`: resolve the task path under
`tasks/`, fail with `FileNotFoundError` if absent, read the raw text, render
it through jinja2 (any `TemplateError` becomes the `Variable Error`
`ValueError`), parse the rendered text with `yaml.safe_load` (a `YAMLError`
becomes the post-render `YAML Syntax Error`, a `None` document the
`empty after rendering` error), and validate the parsed tree as a
`RoutineModel` (a `ValidationError` becomes the `Task Grammar Error`; a
non-mapping tree makes `RoutineModel(**data)` raise an uncaught
`TypeError`). -/
def load_and_render_routine (lib : YamlLib) (fs : FileSys)
    (p : BlueprintParser) (filename : String)
    (context : List (String × Yaml)) : Except PyErr RoutineModel :=
  match readFile? fs (pjoin p.tasks_dir filename) with
  | none =>
    .error (.fileNotFound ("Task file missing: " ++ pjoin p.tasks_dir filename))
  | some raw_content =>
    match renderTemplate context raw_content with
    | .error e =>
      .error (.valueError ("Variable Error in " ++ filename ++ ": " ++ e.msg))
    | .ok rendered_yaml =>
      match lib.safe_load rendered_yaml with
      | .error e =>
        .error (.valueError
          ("YAML Syntax Error in " ++ filename ++ " after rendering: " ++ e))
      | .ok none =>
        .error (.valueError
          ("Task file " ++ filename ++ " is empty after rendering"))
      | .ok (some data) =>
        match data with
        | .map entries =>
          match validateRoutine entries with
          | .error e =>
            .error (.valueError
              ("Task Grammar Error in " ++ filename ++ ":" ++ "\n" ++ e))
          | .ok routine => .ok routine
        | _ =>
          .error (.typeError
            "RoutineModel() argument after ** must be a mapping")

/-- One entry of the execution plan's `tasks` list. -/
structure PlanTask where
  source_file : String
  condition : Option String
  steps : List (List (String × Yaml))

/-- The `meta` header of the execution plan. -/
structure PlanMeta where
  name : String
  target : String
  user : String

/-- The execution plan returned by `parse_blueprint`. -/
structure ExecutionPlan where
  meta : PlanMeta
  tasks : List PlanTask

/-- The run-list loop of `parse_blueprint`: process each task reference in
order, appending one plan task per reference and aborting at the first
failure. -/
def processRun (lib : YamlLib) (fs : FileSys) (p : BlueprintParser)
    (vars : List (String × Yaml)) :
    List TaskRefModel → Except PyErr (List PlanTask)
  | [] => .ok []
  | task_ref :: rest => do
    let routine ← load_and_render_routine lib fs p task_ref.file vars
    let tail ← processRun lib fs p vars rest
    Except.ok ({ source_file := task_ref.file, condition := task_ref.when,
                 steps := routine.steps.map StepModel.model_dump } :: tail)

/-- `BlueprintParser.parse_blueprint`: load the blueprint file
(`FileNotFoundError` if absent), parse it (`YAML Syntax Error` on a
`YAMLError`, `empty` error on a `None` document), validate it as a
`BlueprintModel` (`Blueprint Grammar Error` on a `ValidationError`; a
non-mapping document makes `BlueprintModel(**raw_data)` raise an uncaught
`TypeError`), then process the run list and assemble the plan.  The
`blueprint.vars or {}` expression of the source is kept verbatim as the
`isEmpty` conditional. -/
def parse_blueprint (lib : YamlLib) (fs : FileSys) (p : BlueprintParser)
    (filename : String) : Except PyErr ExecutionPlan :=
  match readFile? fs (pjoin p.root filename) with
  | none =>
    .error (.fileNotFound ("Blueprint not found at " ++ pjoin p.root filename))
  | some content =>
    match lib.safe_load content with
    | .error e =>
      .error (.valueError ("YAML Syntax Error in " ++ filename ++ ": " ++ e))
    | .ok none =>
      .error (.valueError ("Blueprint file " ++ filename ++ " is empty"))
    | .ok (some raw_data) =>
      match raw_data with
      | .map entries =>
        match validateBlueprint entries with
        | .error e =>
          .error (.valueError ("Blueprint Grammar Error:" ++ "\n" ++ e))
        | .ok blueprint =>
          match processRun lib fs p
              (if blueprint.vars.isEmpty then [] else blueprint.vars)
              blueprint.run with
          | .error e => .error e
          | .ok tasks =>
            .ok { meta := { name := blueprint.name, target := blueprint.target,
                            user := blueprint.user },
                  tasks := tasks }
      | _ =>
        .error (.typeError
          "BlueprintModel() argument after ** must be a mapping")

/-- Serialise a plan task back to a YAML tree (for byte-level comparison of
plans). -/
def PlanTask.toYaml (t : PlanTask) : Yaml :=
  .map [("source_file", .str t.source_file),
        ("condition", match t.condition with
          | none => .null
          | some c => .str c),
        ("steps", .seq (t.steps.map Yaml.map))]

/-- Serialise a whole execution plan to its textual (Python `repr`) form:
two plans serialise identically exactly when they are byte-identical. -/
def ExecutionPlan.serialize (plan : ExecutionPlan) : String :=
  pyRepr (.map
    [("meta", .map [("name", .str plan.meta.name),
                    ("target", .str plan.meta.target),
                    ("user", .str plan.meta.user)]),
     ("tasks", .seq (plan.tasks.map PlanTask.toYaml))])

/-- Boolean string-prefix test on character lists. -/
def hasPrefixC : List Char → List Char → Bool
  | [], _ => true
  | _ :: _, [] => false
  | a :: as, b :: bs => a == b && hasPrefixC as bs

/-- Boolean string-prefix test. -/
def strHasPre (pre s : String) : Bool := hasPrefixC pre.data s.data

/-! ## A concrete project, used to evaluate the definitions

A small fixed world — a project root, a YAML library table, and file
contents — exercising the happy path and each failure path of the
compiler. -/

/-- A parser rooted at the project directory `proj`. -/
def demoParser : BlueprintParser := ⟨"proj"⟩

/-- The entries of the parsed blueprint document: two task references, the
second with a `when` condition. -/
def demoBlueprintEntries : List (String × Yaml) :=
  [("name", .str "Web"), ("target", .str "h1"), ("user", .str "root"),
   ("vars", .map [("port", .int 8080)]),
   ("run", .seq [.map [("file", .str "a.yaml")],
                 .map [("file", .str "b.yaml"), ("when", .str "always")]])]

/-- The parsed blueprint document. -/
def demoBlueprintYaml : Yaml := .map demoBlueprintEntries

/-- The validated blueprint model of the demo project. -/
def demoBP : BlueprintModel :=
  { name := "Web", target := "h1", user := "root",
    vars := [("port", .int 8080)],
    run := [{ file := "a.yaml", when := none },
            { file := "b.yaml", when := some "always" }] }

/-- The parsed routine document of `a.yaml` (after rendering): one step
using the reserved key `with`. -/
def demoRoutineYamlA : Yaml :=
  .map [("steps", .seq [.map [("name", .str "x"), ("uses", .str "shell"),
                              ("with", .map [("cmd", .str "echo 8080")])]])]

/-- The parsed routine document of `b.yaml`: zero steps. -/
def demoRoutineYamlB : Yaml := .map [("steps", .seq [])]

/-- Raw text of `tasks/a.yaml`: a template referencing `vars.port`. -/
def tplA : String := "steps for port " ++ odelim ++ " vars.port " ++ cdelim

/-- Raw text of `tasks/t1.yaml`: a bare reference to `vars.port`. -/
def tplT1 : String := odelim ++ " vars.port " ++ cdelim

/-- Raw text of `tasks/unclosed.yaml`: an unclosed variable delimiter. -/
def tplUnclosed : String := "a " ++ odelim ++ " vars.x"

/-- The YAML library on the file contents of this project: a finite table
from rendered text to document trees, with one text that raises a
`YAMLError`, and `None` (the empty document) for unknown text. -/
def demoLoad (s : String) : Except String (Option Yaml) :=
  if s = "BPTEXT" then .ok (some demoBlueprintYaml)
  else if s = "steps for port 8080" then .ok (some demoRoutineYamlA)
  else if s = "plain steps" then .ok (some demoRoutineYamlB)
  else if s = "badyaml" then .error "mapping values are not allowed here"
  else if s = "SEQTEXT" then .ok (some (.seq [.int 1, .int 2]))
  else .ok none

/-- The concrete YAML library. -/
def demoLib : YamlLib := ⟨demoLoad⟩

/-- The project files: a blueprint, two well-formed routines, a blueprint
whose document is a sequence, and routines exercising each failure path. -/
def demoFS : FileSys :=
  [("proj/bp.yaml", "BPTEXT"),
   ("proj/tasks/a.yaml", tplA),
   ("proj/tasks/b.yaml", "plain steps"),
   ("proj/seq.yaml", "SEQTEXT"),
   ("proj/tasks/t1.yaml", tplT1),
   ("proj/tasks/t2.yaml", "badyaml"),
   ("proj/tasks/unclosed.yaml", tplUnclosed)]

/-- The same project with `tasks/b.yaml` deleted. -/
def fsMissing : FileSys :=
  [("proj/bp.yaml", "BPTEXT"), ("proj/tasks/a.yaml", tplA)]

/-- The plan that compiling `bp.yaml` in the demo project produces. -/
def demoPlan : ExecutionPlan :=
  { meta := { name := "Web", target := "h1", user := "root" },
    tasks := [{ source_file := "a.yaml",
                condition := none,
                steps := [[("name", .str "x"),
                           ("uses", .str "shell"),
                           ("ensure", .str "present"),
                           ("with", .map [("cmd", .str "echo 8080")])]] },
              { source_file := "b.yaml", condition := some "always",
                steps := [] }] }

/-! ## Helper lemmas -/

theorem hasPrefixC_append (p q : List Char) : hasPrefixC p (p ++ q) = true := by
  induction p with
  | nil => rfl
  | cons a as ih => simpa [hasPrefixC] using ih

theorem strHasPre_append (p q : String) : strHasPre p (p ++ q) = true := by
  simpa [strHasPre, String.data_append] using hasPrefixC_append p.data q.data

theorem varsOr_eq (v : List (String × Yaml)) :
    (if v.isEmpty then [] else v) = v := by
  cases v <;> simp

/-- A successful run-list loop produces exactly one plan task per task
reference, in order, each built from the routine its file loads to. -/
theorem processRun_ok_spec (lib : YamlLib) (fs : FileSys) (p : BlueprintParser)
    (vars : List (String × Yaml)) (run : List TaskRefModel)
    (tasks : List PlanTask)
    (h : processRun lib fs p vars run = .ok tasks) :
    tasks.length = run.length ∧
    ∀ (i : Nat) (t : TaskRefModel), run[i]? = some t →
      ∃ r, load_and_render_routine lib fs p t.file vars = .ok r ∧
        tasks[i]? = some { source_file := t.file, condition := t.when,
                           steps := r.steps.map StepModel.model_dump } := by
  induction run generalizing tasks with
  | nil =>
    unfold processRun at h
    injection h with h
    subst h
    refine ⟨rfl, ?_⟩
    intro i t ht
    simp at ht
  | cons hd tl ih =>
    unfold processRun at h
    cases hload : load_and_render_routine lib fs p hd.file vars with
    | error e =>
      rw [hload] at h
      exact Except.noConfusion h
    | ok r =>
      rw [hload] at h
      cases hrec : processRun lib fs p vars tl with
      | error e =>
        rw [hrec] at h
        exact Except.noConfusion h
      | ok tailTasks =>
        rw [hrec] at h
        have htasks : (⟨hd.file, hd.when, r.steps.map StepModel.model_dump⟩ :
            PlanTask) :: tailTasks = tasks := Except.ok.inj h
        subst htasks
        obtain ⟨hlen, hidx⟩ := ih tailTasks hrec
        refine ⟨by simp [hlen], ?_⟩
        intro i t ht
        cases i with
        | zero =>
          simp only [List.getElem?_cons_zero, Option.some.injEq] at ht
          subst ht
          exact ⟨r, hload, by simp⟩
        | succ n =>
          simp only [List.getElem?_cons_succ] at ht ⊢
          exact hidx n t ht

/-- If every task reference before position `i` loads successfully and the
one at position `i` fails, the run-list loop fails with exactly that
error. -/
theorem processRun_error_spec (lib : YamlLib) (fs : FileSys)
    (p : BlueprintParser) (vars : List (String × Yaml))
    (run : List TaskRefModel) (i : Nat) (t : TaskRefModel) (er : PyErr)
    (ht : run[i]? = some t)
    (hprev : ∀ (j : Nat) (tj : TaskRefModel), j < i → run[j]? = some tj →
      (load_and_render_routine lib fs p tj.file vars).isOk = true)
    (he : load_and_render_routine lib fs p t.file vars = .error er) :
    processRun lib fs p vars run = .error er := by
  induction run generalizing i with
  | nil => simp at ht
  | cons hd tl ih =>
    cases i with
    | zero =>
      simp only [List.getElem?_cons_zero, Option.some.injEq] at ht
      subst ht
      unfold processRun
      rw [he]
      rfl
    | succ n =>
      simp only [List.getElem?_cons_succ] at ht
      have hhd : (load_and_render_routine lib fs p hd.file vars).isOk = true :=
        hprev 0 hd (Nat.succ_pos n) (by simp)
      cases hload : load_and_render_routine lib fs p hd.file vars with
      | error e =>
        rw [hload] at hhd
        simp [Except.isOk, Except.toBool] at hhd
      | ok r =>
        unfold processRun
        rw [hload]
        have hrec : processRun lib fs p vars tl = .error er :=
          ih n ht (fun j tj hj hjt =>
            hprev (j + 1) tj (Nat.succ_lt_succ hj) (by simpa using hjt))
        rw [hrec]
        rfl

/-- Rendering a segment list fails whenever any one of its segments fails
(strict mode: one unresolved reference invalidates the whole render). -/
theorem renderSegs_error_of_mem (context : List (String × Yaml))
    (segs : List Seg) (s : Seg) (hmem : s ∈ segs)
    (hbad : ∀ out, renderSeg context s ≠ .ok out) :
    ∃ e, renderSegs context segs = .error e := by
  induction segs with
  | nil => cases hmem
  | cons hd tl ih =>
    cases hhd : renderSeg context hd with
    | error e =>
      refine ⟨e, ?_⟩
      unfold renderSegs
      rw [hhd]
      rfl
    | ok out =>
      rcases List.mem_cons.mp hmem with heq | hmem2
      · subst heq
        exact absurd hhd (hbad out)
      · obtain ⟨e, he⟩ := ih hmem2
        refine ⟨e, ?_⟩
        unfold renderSegs
        rw [hhd, he]
        rfl

/-- The text a segment list renders to when no reference fails: literals
verbatim, each variable block replaced by the value it evaluates to. -/
def renderedText (context : List (String × Yaml)) : List Seg → String
  | [] => ""
  | .lit text :: rest => String.mk text ++ renderedText context rest
  | .ref expr :: rest =>
    (match evalExpr context expr with
     | .ok out => out
     | .error _ => "") ++ renderedText context rest

/-- When every variable block of a segment list evaluates, rendering
succeeds and substitution is textually exact. -/
theorem renderSegs_ok_of_all_ok (context : List (String × Yaml))
    (segs : List Seg)
    (hok : ∀ expr, Seg.ref expr ∈ segs → (evalExpr context expr).isOk = true) :
    renderSegs context segs = .ok (renderedText context segs) := by
  induction segs with
  | nil => rfl
  | cons hd tl ih =>
    have htl : ∀ expr, Seg.ref expr ∈ tl → (evalExpr context expr).isOk = true :=
      fun expr hm => hok expr (List.mem_cons_of_mem _ hm)
    cases hd with
    | lit text =>
      unfold renderSegs
      rw [show renderSeg context (.lit text) = .ok (String.mk text) from rfl,
        ih htl]
      rfl
    | ref expr =>
      have hex : (evalExpr context expr).isOk = true :=
        hok expr (List.mem_cons_self _ _)
      cases heval : evalExpr context expr with
      | error e =>
        rw [heval] at hex
        simp [Except.isOk, Except.toBool] at hex
      | ok out =>
        unfold renderSegs
        rw [show renderSeg context (.ref expr) = evalExpr context expr from rfl,
          heval, ih htl]
        conv_rhs => rw [renderedText]
        rw [heval]
        rfl

/-! ## Claim theorems -/

/-- C1: whenever `parse_blueprint` succeeds, the returned plan has exactly
one task per entry of the validated blueprint's run list, in run-list order:
the `i`-th plan task carries the `i`-th reference's `file` as
`source_file`, its `when` (defaulted to null when absent, by
`validateTaskRef`) as `condition`, and the dumped steps of the routine that
file loads to, in their file order. -/
theorem parse_blueprint_preserves_run_order (lib : YamlLib) (fs : FileSys)
    (p : BlueprintParser) (filename : String) (plan : ExecutionPlan)
    (hok : parse_blueprint lib fs p filename = .ok plan) :
    ∃ content entries bp,
      readFile? fs (pjoin p.root filename) = some content ∧
      lib.safe_load content = .ok (some (.map entries)) ∧
      validateBlueprint entries = .ok bp ∧
      plan.meta = ⟨bp.name, bp.target, bp.user⟩ ∧
      plan.tasks.length = bp.run.length ∧
      ∀ (i : Nat) (t : TaskRefModel), bp.run[i]? = some t →
        ∃ r, load_and_render_routine lib fs p t.file bp.vars = .ok r ∧
          plan.tasks[i]? = some ⟨t.file, t.when,
            r.steps.map StepModel.model_dump⟩ := by
  unfold parse_blueprint at hok
  split at hok
  · exact Except.noConfusion hok
  · rename_i content hread
    split at hok
    · exact Except.noConfusion hok
    · exact Except.noConfusion hok
    · rename_i raw hload
      split at hok
      · rename_i entries
        split at hok
        · exact Except.noConfusion hok
        · rename_i bp hval
          rw [varsOr_eq] at hok
          split at hok
          · exact Except.noConfusion hok
          · rename_i tasks hrun
            have hplan : (⟨⟨bp.name, bp.target, bp.user⟩, tasks⟩ :
                ExecutionPlan) = plan := Except.ok.inj hok
            subst hplan
            obtain ⟨hlen, hidx⟩ :=
              processRun_ok_spec lib fs p bp.vars bp.run tasks hrun
            exact ⟨content, entries, bp, hread, hload, hval, rfl, hlen, hidx⟩
      · exact Except.noConfusion hok

/-- C2 helper: recognising a `vars.<key>` reference. -/
theorem stripVarsDot_varsRef (key : String) :
    stripVarsDot (varsRef key) = some key.data := rfl

/-- C2 helper: a `vars.<key>` reference with `key` absent from the context
evaluates to an `UndefinedError` under strict mode. -/
theorem evalExpr_missing_key (context : List (String × Yaml))
    (expr : List Char) (key : String)
    (htrim : trimChars expr = varsRef key)
    (hkey : lookupY context key = none) :
    evalExpr context expr = .error (.undefinedErr key) := by
  unfold evalExpr
  rw [htrim]
  simp only [stripVarsDot_varsRef]
  rw [show String.mk key.data = key from rfl]
  simp only [hkey]

/-- C2/C10 helper: when the template engine fails on a routine's raw text,
`_load_and_render_routine` raises the `Variable Error` `ValueError`. -/
theorem load_and_render_render_error (lib : YamlLib) (fs : FileSys)
    (p : BlueprintParser) (filename : String)
    (context : List (String × Yaml)) (raw : String) (e : JinjaErr)
    (hread : readFile? fs (pjoin p.tasks_dir filename) = some raw)
    (hre : renderTemplate context raw = .error e) :
    load_and_render_routine lib fs p filename context =
      .error (.valueError
        ("Variable Error in " ++ filename ++ ": " ++ e.msg)) := by
  unfold load_and_render_routine
  simp only [hread, hre]

/-- C2: strict variable resolution.  For a routine file whose raw text lexes
to segments `segs`: (a) if some variable block is a `vars.<key>` reference
with `key` absent from the context, `_load_and_render_routine` fails with
the `Variable Error in <filename>` `ValueError`; (b) conversely, if every
variable block evaluates, rendering succeeds and substitution is textually
exact — each block replaced by the printed value, literals verbatim. -/
theorem strict_variable_resolution (lib : YamlLib) (fs : FileSys)
    (p : BlueprintParser) (filename : String)
    (context : List (String × Yaml)) (raw : String) (segs : List Seg)
    (hread : readFile? fs (pjoin p.tasks_dir filename) = some raw)
    (hscan : scanTemplate raw = .ok segs) :
    ((∃ expr key, Seg.ref expr ∈ segs ∧ trimChars expr = varsRef key ∧
        lookupY context key = none) →
      ∃ m, load_and_render_routine lib fs p filename context =
          .error (.valueError m) ∧
        strHasPre ("Variable Error in " ++ filename) m = true) ∧
    ((∀ expr, Seg.ref expr ∈ segs → (evalExpr context expr).isOk = true) →
      renderTemplate context raw = .ok (renderedText context segs)) := by
  constructor
  · rintro ⟨expr, key, hmem, htrim, hkey⟩
    have hbad : ∀ out, renderSeg context (Seg.ref expr) ≠ .ok out := by
      intro out hout
      have hev : evalExpr context expr = .ok out := hout
      rw [evalExpr_missing_key context expr key htrim hkey] at hev
      exact Except.noConfusion hev
    obtain ⟨e, he⟩ := renderSegs_error_of_mem context segs _ hmem hbad
    have hre : renderTemplate context raw = .error e := by
      unfold renderTemplate
      rw [hscan]
      exact he
    refine ⟨"Variable Error in " ++ filename ++ ": " ++ e.msg,
      load_and_render_render_error lib fs p filename context raw e hread hre,
      ?_⟩
    rw [String.append_assoc]
    exact strHasPre_append _ _
  · intro hall
    have hr := renderSegs_ok_of_all_ok context segs hall
    unfold renderTemplate
    rw [hscan]
    exact hr

/-- C2 witness: with an empty variable map, the routine `t1.yaml`
(referencing `vars.port`) fails with the `Variable Error in t1.yaml`
diagnostic; with `port = 8080`, the template of `a.yaml` renders to exactly
`steps for port 8080`. -/
theorem strict_variable_resolution_witness :
    (∃ m, load_and_render_routine demoLib demoFS demoParser "t1.yaml" [] =
        .error (.valueError m) ∧
      strHasPre ("Variable Error in " ++ "t1.yaml") m = true) ∧
    renderTemplate [("port", Yaml.int 8080)] tplA = .ok "steps for port 8080" := by
  constructor
  · exact (strict_variable_resolution demoLib demoFS demoParser "t1.yaml" []
      tplT1 [Seg.lit [], Seg.ref (" vars.port ".data), Seg.lit []]
      rfl rfl).1
      ⟨" vars.port ".data, "port",
        List.mem_cons_of_mem _ (List.mem_cons_self _ _), rfl, rfl⟩
  · have h2 := (strict_variable_resolution demoLib demoFS demoParser "a.yaml"
      [("port", Yaml.int 8080)] tplA
      [Seg.lit ("steps for port ".data), Seg.ref (" vars.port ".data),
        Seg.lit []]
      rfl rfl).2
      (by
        intro expr hm
        simp only [List.mem_cons, List.not_mem_nil, or_false] at hm
        rcases hm with h | h | h
        · exact absurd h (by intro hh; cases hh)
        · cases h; rfl
        · exact absurd h (by intro hh; cases hh))
    exact h2

/-- C1 witness: in the demo project, compiling `bp.yaml` succeeds and the
theorem's conclusion holds for the resulting plan. -/
theorem parse_blueprint_preserves_run_order_witness :
    ∃ content entries bp,
      readFile? demoFS (pjoin demoParser.root "bp.yaml") = some content ∧
      demoLib.safe_load content = .ok (some (.map entries)) ∧
      validateBlueprint entries = .ok bp ∧
      demoPlan.meta = ⟨bp.name, bp.target, bp.user⟩ ∧
      demoPlan.tasks.length = bp.run.length ∧
      ∀ (i : Nat) (t : TaskRefModel), bp.run[i]? = some t →
        ∃ r, load_and_render_routine demoLib demoFS demoParser t.file bp.vars
            = .ok r ∧
          demoPlan.tasks[i]? = some ⟨t.file, t.when,
            r.steps.map StepModel.model_dump⟩ :=
  parse_blueprint_preserves_run_order demoLib demoFS demoParser "bp.yaml"
    demoPlan (by rfl)

/-- C3: compile is all-or-nothing and fails at the first failing task
reference in run-list order.  If the blueprint itself loads and validates,
every task reference before position `i` loads successfully, and the one at
position `i` fails, then `parse_blueprint` fails with exactly that error —
no partial plan is returned. -/
theorem parse_blueprint_first_failure (lib : YamlLib) (fs : FileSys)
    (p : BlueprintParser) (filename content : String)
    (entries : List (String × Yaml)) (bp : BlueprintModel)
    (i : Nat) (t : TaskRefModel) (er : PyErr)
    (hread : readFile? fs (pjoin p.root filename) = some content)
    (hload : lib.safe_load content = .ok (some (.map entries)))
    (hval : validateBlueprint entries = .ok bp)
    (ht : bp.run[i]? = some t)
    (hprev : ∀ (j : Nat) (tj : TaskRefModel), j < i → bp.run[j]? = some tj →
      (load_and_render_routine lib fs p tj.file bp.vars).isOk = true)
    (he : load_and_render_routine lib fs p t.file bp.vars = .error er) :
    parse_blueprint lib fs p filename = .error er := by
  have hrun : processRun lib fs p bp.vars bp.run = .error er :=
    processRun_error_spec lib fs p bp.vars bp.run i t er ht hprev he
  unfold parse_blueprint
  simp only [hread, hload, hval, varsOr_eq, hrun]

/-- C3 witness: with `tasks/b.yaml` deleted, compiling `bp.yaml` fails with
the second task's `FileNotFoundError` even though the first task reference
is valid — no partial plan. -/
theorem parse_blueprint_first_failure_witness :
    parse_blueprint demoLib fsMissing demoParser "bp.yaml" =
      .error (.fileNotFound "Task file missing: proj/tasks/b.yaml") := by
  refine parse_blueprint_first_failure demoLib fsMissing demoParser "bp.yaml"
    "BPTEXT" demoBlueprintEntries demoBP 1 ⟨"b.yaml", some "always"⟩ _
    rfl rfl rfl rfl ?_ rfl
  intro j tj hj hjt
  have hj0 : j = 0 := Nat.lt_one_iff.mp hj
  subst hj0
  rw [show demoBP.run = [(⟨"a.yaml", none⟩ : TaskRefModel),
    ⟨"b.yaml", some "always"⟩] from rfl] at hjt
  rw [List.getElem?_cons_zero] at hjt
  injection hjt with hjt
  subst hjt
  rfl

/-- C4: a task reference whose file does not exist under
`project_root/tasks/` makes `_load_and_render_routine` fail with the
`Task file missing` `FileNotFoundError`, for every YAML library and every
variable context — the check precedes any read, render or parse of the
file. -/
theorem task_file_missing_not_found (lib : YamlLib) (fs : FileSys)
    (p : BlueprintParser) (filename : String)
    (context : List (String × Yaml))
    (habsent : readFile? fs (pjoin p.tasks_dir filename) = none) :
    load_and_render_routine lib fs p filename context =
      .error (.fileNotFound
        ("Task file missing: " ++ pjoin p.tasks_dir filename)) := by
  unfold load_and_render_routine
  simp only [habsent]

/-- C4 witness: in the project with `tasks/b.yaml` deleted, loading
`b.yaml` fails with the `Task file missing` `FileNotFoundError`. -/
theorem task_file_missing_not_found_witness :
    load_and_render_routine demoLib fsMissing demoParser "b.yaml" [] =
      .error (.fileNotFound
        ("Task file missing: " ++ pjoin demoParser.tasks_dir "b.yaml")) :=
  task_file_missing_not_found demoLib fsMissing demoParser "b.yaml" [] rfl

/-- C5: key aliasing.  For a step mapping whose `name`/`uses` are strings
and whose `ensure` is absent or a string: if the reserved key `with` holds a
mapping `m`, validation succeeds, the validated step carries exactly `m` in
its internal `with_args` field, and the dumped step (the form the plan
surfaces, by C1) carries exactly `m` back under the key `with`; if `with` is
absent, `with_args` defaults to the empty mapping. -/
theorem step_with_key_aliasing (entries : List (String × Yaml)) (n u : String)
    (hn : lookupY entries "name" = some (.str n))
    (hu : lookupY entries "uses" = some (.str u))
    (hens : lookupY entries "ensure" = none ∨
      ∃ es, lookupY entries "ensure" = some (.str es)) :
    (∀ m, lookupY entries "with" = some (.map m) →
      ∃ st, validateStep (.map entries) = .ok st ∧ st.with_args = m ∧
        lookupY st.model_dump "with" = some (.map m)) ∧
    (lookupY entries "with" = none →
      ∃ st, validateStep (.map entries) = .ok st ∧ st.with_args = [] ∧
        lookupY st.model_dump "with" = some (.map [])) := by
  rcases hens with hens | ⟨es, hens⟩
  · constructor
    · intro m hw
      refine ⟨⟨n, u, "present", m⟩, ?_, rfl, ?_⟩
      · unfold validateStep reqStr optStr
        simp only [hn, hu, hens, hw]
        rfl
      · rfl
    · intro hw
      refine ⟨⟨n, u, "present", []⟩, ?_, rfl, ?_⟩
      · unfold validateStep reqStr optStr
        simp only [hn, hu, hens, hw]
        rfl
      · rfl
  · constructor
    · intro m hw
      refine ⟨⟨n, u, es, m⟩, ?_, rfl, ?_⟩
      · unfold validateStep reqStr optStr
        simp only [hn, hu, hens, hw]
        rfl
      · rfl
    · intro hw
      refine ⟨⟨n, u, es, []⟩, ?_, rfl, ?_⟩
      · unfold validateStep reqStr optStr
        simp only [hn, hu, hens, hw]
        rfl
      · rfl

/-- C5 witness: a step authored with `with: \x7ba: 1\x7d` validates to a step
whose `with_args` is exactly that mapping, and dumps it back under the key
`with` unchanged. -/
theorem step_with_key_aliasing_witness :
    ∃ st, validateStep (.map [("name", Yaml.str "x"),
        ("uses", Yaml.str "shell"),
        ("with", Yaml.map [("a", Yaml.int 1)])]) = .ok st ∧
      st.with_args = [("a", Yaml.int 1)] ∧
      lookupY st.model_dump "with" = some (.map [("a", Yaml.int 1)]) :=
  (step_with_key_aliasing
    [("name", Yaml.str "x"), ("uses", Yaml.str "shell"),
     ("with", Yaml.map [("a", Yaml.int 1)])]
    "x" "shell" rfl rfl (Or.inl rfl)).1 [("a", Yaml.int 1)] rfl

/-- C6/C7 helper: a boolean prefix extends along appends on the right. -/
theorem hasPrefixC_append_right (p s t : List Char)
    (h : hasPrefixC p s = true) : hasPrefixC p (s ++ t) = true := by
  induction p generalizing s with
  | nil => rfl
  | cons a as ih =>
    cases s with
    | nil => exact absurd h (by simp [hasPrefixC])
    | cons b bs =>
      simp only [hasPrefixC, List.cons_append, Bool.and_eq_true] at h ⊢
      exact ⟨h.1, ih bs h.2⟩

/-- String version of `hasPrefixC_append_right`. -/
theorem strHasPre_append_right (p s t : String)
    (h : strHasPre p s = true) : strHasPre p (s ++ t) = true := by
  unfold strHasPre at h ⊢
  rw [String.data_append]
  exact hasPrefixC_append_right p.data s.data t.data h

/-- C6 helper: inversion of a successful required-string validation. -/
theorem reqStr_ok_inv (entries : List (String × Yaml)) (k s : String)
    (h : reqStr entries k = .ok s) :
    lookupY entries k = some (.str s) := by
  unfold reqStr at h
  split at h
  · rename_i s2 hl
    rw [hl, Except.ok.inj h]
  · exact Except.noConfusion h
  · exact Except.noConfusion h

/-- C6 counterexample: the claim that validated steps have non-empty `name`
and `uses` fails on the code.  Pydantic's `str` places no lower bound on
length, so the step mapping with `name: ""` and `uses: ""` is accepted by
validation, with both fields empty. -/
theorem validateStep_accepts_empty_name :
    validateStep (.map [("name", Yaml.str ""), ("uses", Yaml.str "")]) =
      .ok ⟨"", "", "present", []⟩ := rfl

/-- C6 amended: after successful validation, `name` and `uses` are strings
taken verbatim from the step mapping's `name` and `uses` keys, which must be
present and string-typed; they are not required to be non-empty. -/
theorem validated_step_fields_are_strings (y : Yaml) (st : StepModel)
    (h : validateStep y = .ok st) :
    ∃ entries, y = .map entries ∧
      lookupY entries "name" = some (.str st.name) ∧
      lookupY entries "uses" = some (.str st.uses) := by
  cases y with
  | str s => exact Except.noConfusion h
  | int n => exact Except.noConfusion h
  | bool b => exact Except.noConfusion h
  | null => exact Except.noConfusion h
  | seq items => exact Except.noConfusion h
  | map entries =>
    simp only [validateStep] at h
    cases hn : reqStr entries "name" with
    | error e => rw [hn] at h; exact Except.noConfusion h
    | ok n =>
      rw [hn] at h
      cases hu : reqStr entries "uses" with
      | error e => rw [hu] at h; exact Except.noConfusion h
      | ok u =>
        rw [hu] at h
        cases hes : optStr entries "ensure" "present" with
        | error e => rw [hes] at h; exact Except.noConfusion h
        | ok es =>
          rw [hes] at h
          cases hw : lookupY entries "with" with
          | none =>
            rw [hw] at h
            have hst : (⟨n, u, es, []⟩ : StepModel) = st := Except.ok.inj h
            subst hst
            exact ⟨entries, rfl, reqStr_ok_inv entries "name" n hn,
              reqStr_ok_inv entries "uses" u hu⟩
          | some v =>
            rw [hw] at h
            cases v with
            | map m =>
              have hst : (⟨n, u, es, m⟩ : StepModel) = st := Except.ok.inj h
              subst hst
              exact ⟨entries, rfl, reqStr_ok_inv entries "name" n hn,
                reqStr_ok_inv entries "uses" u hu⟩
            | str s2 => exact Except.noConfusion h
            | int n2 => exact Except.noConfusion h
            | bool b2 => exact Except.noConfusion h
            | null => exact Except.noConfusion h
            | seq items2 => exact Except.noConfusion h

/-- C6 amended witness: a concrete accepted step, whose `name` and `uses`
come verbatim from the mapping. -/
theorem validated_step_fields_are_strings_witness :
    ∃ entries, Yaml.map [("name", Yaml.str "x"), ("uses", Yaml.str "shell")]
        = Yaml.map entries ∧
      lookupY entries "name" = some (.str "x") ∧
      lookupY entries "uses" = some (.str "shell") :=
  validated_step_fields_are_strings
    (.map [("name", Yaml.str "x"), ("uses", Yaml.str "shell")])
    ⟨"x", "shell", "present", []⟩ rfl

/-- C7 counterexample: two different failure kinds — an undefined variable
in `t1.yaml` and a post-render YAML syntax error in `t2.yaml` — surface as
the same Python exception class (`ValueError`); a caller matching on the
exception type alone cannot tell them apart, contrary to the claim that
each of the five kinds is independently matchable without parsing message
text. -/
theorem error_kinds_share_exception_class :
    load_and_render_routine demoLib demoFS demoParser "t1.yaml" [] =
      .error (.valueError
        "Variable Error in t1.yaml: dict object has no attribute port") ∧
    load_and_render_routine demoLib demoFS demoParser "t2.yaml" [] =
      .error (.valueError
        ("YAML Syntax Error in t2.yaml after rendering: " ++
          "mapping values are not allowed here")) ∧
    PyErr.pyType (.valueError
        "Variable Error in t1.yaml: dict object has no attribute port") =
      PyErr.pyType (.valueError
        ("YAML Syntax Error in t2.yaml after rendering: " ++
          "mapping values are not allowed here")) :=
  ⟨rfl, rfl, rfl⟩

/-- C7 amended: only `NotFoundError` is independently matchable by exception
class (`FileNotFoundError`); the syntax, empty-document, grammar and
variable failures of a routine all surface as `ValueError` and are
distinguishable only by their message prefixes (and a non-mapping routine
document escapes as an uncaught `TypeError`). -/
theorem routine_error_taxonomy (lib : YamlLib) (fs : FileSys)
    (p : BlueprintParser) (filename : String)
    (context : List (String × Yaml)) (e : PyErr)
    (h : load_and_render_routine lib fs p filename context = .error e) :
    (∃ m, e = .fileNotFound m ∧ strHasPre "Task file missing: " m = true) ∨
    (∃ m, e = .valueError m ∧
      (strHasPre ("Variable Error in " ++ filename) m = true ∨
       strHasPre ("YAML Syntax Error in " ++ filename) m = true ∨
       strHasPre ("Task file " ++ filename) m = true ∨
       strHasPre ("Task Grammar Error in " ++ filename) m = true)) ∨
    (∃ m, e = .typeError m) := by
  unfold load_and_render_routine at h
  split at h
  · exact Or.inl ⟨_, (Except.error.inj h).symm, strHasPre_append _ _⟩
  · rename_i raw hraw
    split at h
    · exact Or.inr (Or.inl ⟨_, (Except.error.inj h).symm,
        Or.inl (strHasPre_append_right _ _ _ (strHasPre_append _ _))⟩)
    · split at h
      · exact Or.inr (Or.inl ⟨_, (Except.error.inj h).symm,
          Or.inr (Or.inl
            (strHasPre_append_right _ _ _ (strHasPre_append _ _)))⟩)
      · exact Or.inr (Or.inl ⟨_, (Except.error.inj h).symm,
          Or.inr (Or.inr (Or.inl (strHasPre_append _ _)))⟩)
      · split at h
        · split at h
          · exact Or.inr (Or.inl ⟨_, (Except.error.inj h).symm,
              Or.inr (Or.inr (Or.inr (strHasPre_append_right _ _ _
                (strHasPre_append_right _ _ _ (strHasPre_append _ _)))))⟩)
          · exact Except.noConfusion h
        · exact Or.inr (Or.inr ⟨_, (Except.error.inj h).symm⟩)

/-- C7 amended witness: the undefined-variable failure of `t1.yaml` is
classified by its `ValueError` message prefix. -/
theorem routine_error_taxonomy_witness :
    (∃ m, (PyErr.valueError
        "Variable Error in t1.yaml: dict object has no attribute port") =
          .fileNotFound m ∧ strHasPre "Task file missing: " m = true) ∨
    (∃ m, (PyErr.valueError
        "Variable Error in t1.yaml: dict object has no attribute port") =
          .valueError m ∧
      (strHasPre ("Variable Error in " ++ "t1.yaml") m = true ∨
       strHasPre ("YAML Syntax Error in " ++ "t1.yaml") m = true ∨
       strHasPre ("Task file " ++ "t1.yaml") m = true ∨
       strHasPre ("Task Grammar Error in " ++ "t1.yaml") m = true)) ∨
    (∃ m, (PyErr.valueError
        "Variable Error in t1.yaml: dict object has no attribute port") =
          .typeError m) :=
  routine_error_taxonomy demoLib demoFS demoParser "t1.yaml" []
    (.valueError "Variable Error in t1.yaml: dict object has no attribute port")
    rfl

/-- C8: a blueprint file whose document is a YAML sequence.  The spec says
this fails as a schema error surfaced as `GrammarError` (a `ValueError`
marked `Blueprint Grammar Error`); the code instead raises an uncaught
`TypeError` from the keyword-unpacking in `BlueprintModel(**raw_data)`,
which contradicts `parse_blueprint`'s documented contract of raising only
`FileNotFoundError` or `ValueError`. -/
theorem non_mapping_blueprint_raises_type_error :
    parse_blueprint demoLib demoFS demoParser "seq.yaml" =
      .error (.typeError
        "BlueprintModel() argument after ** must be a mapping") ∧
    PyErr.pyType (.typeError
        "BlueprintModel() argument after ** must be a mapping") ≠
      PyErr.pyType (.valueError "Blueprint Grammar Error:") :=
  ⟨rfl, by decide⟩

/-- C9: compile is deterministic in its inputs.  With the project root, the
YAML library and all file contents fixed, two invocations of
`parse_blueprint` that return plans return the same plan, byte-identical
when serialised.  (The embedding is a pure function of those inputs because
the source mutates no parser state: `BlueprintParser` carries only the
project root, the derived `tasks` directory and a stateless jinja
environment.) -/
theorem parse_blueprint_deterministic (lib : YamlLib) (fs : FileSys)
    (p : BlueprintParser) (filename : String) (plan1 plan2 : ExecutionPlan)
    (h1 : parse_blueprint lib fs p filename = .ok plan1)
    (h2 : parse_blueprint lib fs p filename = .ok plan2) :
    plan1 = plan2 ∧ plan1.serialize = plan2.serialize := by
  have h := Except.ok.inj (h1.symm.trans h2)
  exact ⟨h, congrArg _ h⟩

/-- C9 witness: two compiles of the demo blueprint both return `demoPlan`,
with identical serialisations. -/
theorem parse_blueprint_deterministic_witness :
    demoPlan = demoPlan ∧ demoPlan.serialize = demoPlan.serialize :=
  parse_blueprint_deterministic demoLib demoFS demoParser "bp.yaml"
    demoPlan demoPlan rfl rfl

/-- C10: all template-engine failures funnel through the single
`Variable Error` branch.  If a routine's raw text fails to lex (e.g. an
unclosed opening delimiter), `from_string` raises a `TemplateSyntaxError`,
which the same `except TemplateError` handler catches, so the reported
failure is the `Variable Error in <filename>` `ValueError` — not a
pre-render syntax error. -/
theorem template_errors_funnel_to_variable_error (lib : YamlLib)
    (fs : FileSys) (p : BlueprintParser) (filename : String)
    (context : List (String × Yaml)) (raw : String) (e : JinjaErr)
    (hread : readFile? fs (pjoin p.tasks_dir filename) = some raw)
    (hscan : scanTemplate raw = .error e) :
    ∃ m, load_and_render_routine lib fs p filename context =
        .error (.valueError m) ∧
      strHasPre ("Variable Error in " ++ filename) m = true := by
  have hre : renderTemplate context raw = .error e := by
    unfold renderTemplate
    rw [hscan]
    rfl
  exact ⟨_,
    load_and_render_render_error lib fs p filename context raw e hread hre,
    strHasPre_append_right _ _ _ (strHasPre_append _ _)⟩

/-- C10 witness: the routine `unclosed.yaml`, whose raw text has an
unclosed opening delimiter, fails with the `Variable Error` diagnostic. -/
theorem template_errors_funnel_witness :
    ∃ m, load_and_render_routine demoLib demoFS demoParser "unclosed.yaml" []
        = .error (.valueError m) ∧
      strHasPre ("Variable Error in " ++ "unclosed.yaml") m = true :=
  template_errors_funnel_to_variable_error demoLib demoFS demoParser
    "unclosed.yaml" [] tplUnclosed JinjaErr.lexErr rfl rfl

end Loom
